import Mathlib

/-!
Verification of the StoryCrafter MCP request-transformation and dispatch
core (`src/app/api/mcp/route.ts`, with the bearer-token variant in
`src/unnamed/part_000`).

The TypeScript is embedded shallowly:

* JavaScript values that the code reads through `a || b` chains are
  modelled as `Option String` with JavaScript truthiness (`none` is
  `undefined`; `some ""` is the falsy empty string).
* Objects whose keys the code enumerates (`Object.keys(...).forEach`)
  are association lists in insertion order.
* Sections of the input that the code only tests for presence are
  `Option` of a structure; object values are always truthy in
  JavaScript, so presence equals `isSome`.
* Fields the code never reads are kept in an `extra` list so that
  claims about dropped fields can be stated.
-/

namespace StoryCrafter

/-- JavaScript truthiness of a possibly-absent string: `undefined`,
`null` and `""` are falsy. -/
def truthyS : Option String → Bool
  | some s => s ≠ ""
  | none => false

/-- `a || d` for a possibly-absent string against a literal default. -/
def jsOrD (a : Option String) (d : String) : String :=
  match a with
  | some s => if s = "" then d else s
  | none => d

/-- `a || b || d`: two possibly-absent strings, then a literal default. -/
def jsOrD2 (a b : Option String) (d : String) : String :=
  match a with
  | some s => if s = "" then jsOrD b d else s
  | none => jsOrD b d

/-- `a || b` where both operands are possibly-absent strings and the
result is stored in a possibly-absent slot (metadata assignment). -/
def jsOrOpt (a b : Option String) : Option String :=
  match a with
  | some s => if s = "" then b else some s
  | none => b

/-- `a || b` on object-valued operands: any object is truthy, so the
first present one wins. -/
def jsOrAny {α : Type} (a b : Option α) : Option α :=
  if a.isSome then a else b

/-- The whitespace characters stripped by JavaScript `String.trim`
(ASCII part; the produced contents are ASCII). -/
def isJsWhitespace (c : Char) : Bool :=
  c = ' ' || c = '\t' || c = '\n' || c = '\r' || c = '\x0b' || c = '\x0c'

/-- JavaScript `s.trim()`. -/
def jsTrim (s : String) : String :=
  ⟨((s.data.dropWhile isJsWhitespace).reverse.dropWhile isJsWhitespace).reverse⟩

/-- `\w` of JavaScript regular expressions: ASCII letters, digits, `_`. -/
def isJsWordChar (c : Char) : Bool :=
  c.isAlphanum || c = '_'

/-- One pass of `replace(/\b\w/g, l => l.toUpperCase())`: a word
character is uppercased when the previous character was not a word
character. The boolean argument records whether the previous character
was a word character. -/
def titleCaseAux : Bool → List Char → List Char
  | _, [] => []
  | prevW, c :: cs =>
      (if !prevW && isJsWordChar c then c.toUpper else c) :: titleCaseAux (isJsWordChar c) cs

/-- `s.replace(/\b\w/g, l => l.toUpperCase())`. -/
def jsTitleCase (s : String) : String :=
  ⟨titleCaseAux false s.data⟩

/-- `s.replace(/_/g, ' ')`. -/
def underscoresToSpaces (s : String) : String :=
  ⟨s.data.map fun c => if c = '_' then ' ' else c⟩

/-- The label of a technical sub-field:
`key.replace(/_/g, ' ').replace(/\b\w/g, l => l.toUpperCase())`
(route.ts line 228). -/
def jsLabel (k : String) : String :=
  jsTitleCase (underscoresToSpaces k)

/-- The label of a milestone key:
`key.replace(/_/g, ' ').toUpperCase()` (route.ts line 251). -/
def jsUpperLabel (k : String) : String :=
  ⟨(underscoresToSpaces k).data.map Char.toUpper⟩

/-- Concatenation of a list of strings, the result of the `forEach`
loops that append one line per element. -/
def strJoin : List String → String
  | [] => ""
  | s :: rest => s ++ strJoin rest

/-- Substring test: some tail of the haystack starts with the needle. -/
def strContains (hay needle : String) : Bool :=
  hay.data.tails.any fun t => needle.data.isPrefixOf t

/-- One entry of `consensus_messages`: `{role, content}` (route.ts
lines 16-19). -/
structure ConsensusMessage where
  role : String
  content : String
deriving DecidableEq, Repr

/-- `ProjectMetadata` (route.ts lines 21-28): all fields optional; a
field assigned `undefined` is dropped by JSON serialization, which
`none` models. -/
structure ProjectMetadata where
  project_name : Option String := none
  project_description : Option String := none
  target_users : Option String := none
  platform : Option String := none
  timeline : Option String := none
  team_size : Option String := none
deriving DecidableEq, Repr

/-- The fields of `project_context.project_summary` that
`transformProjectContext` reads (route.ts lines 182-191 and 265-273),
each in both its snake_case and camelCase spelling, plus the fields the
function never reads. -/
structure ProjectSummary where
  project_name : Option String := none
  projectName : Option String := none
  project_description : Option String := none
  projectDescription : Option String := none
  target_users : Option String := none
  targetUsers : Option String := none
  platform : Option String := none
  timeline : Option String := none
  team_size : Option String := none
  teamSize : Option String := none
  extra : List (String × String) := []
deriving DecidableEq, Repr

/-- The fields of `final_decisions.product` that the Alex branch reads
(route.ts lines 201-220), plus unread fields. -/
structure ProductSection where
  mvp_features : Option (List String) := none
  mvpFeatures : Option (List String) := none
  target_users : Option String := none
  targetUsers : Option String := none
  development_approach : Option String := none
  developmentApproach : Option String := none
  extra : List (String × String) := []
deriving DecidableEq, Repr

/-- The fields of `final_decisions.project` that the Casey branch reads
(route.ts lines 236-261), plus unread fields. `milestones` is an object
enumerated with `Object.keys` in insertion order. -/
structure ProjectSection where
  timeline : Option String := none
  team : Option String := none
  milestones : Option (List (String × String)) := none
  testing : Option String := none
  extra : List (String × String) := []
deriving DecidableEq, Repr

/-- `final_decisions`: the three perspective keys the transformer tests
(route.ts lines 201, 223, 236); `technical` is enumerated generically
with `Object.keys`, so it is a full association list. `extra` holds
unknown perspective keys, which are never read. -/
structure FinalDecisions where
  product : Option ProductSection := none
  technical : Option (List (String × String)) := none
  project : Option ProjectSection := none
  extra : List (String × String) := []
deriving DecidableEq, Repr

/-- `project_context` as `transformProjectContext` reads it (route.ts
lines 182 and 197): each section under its snake_case or camelCase key. -/
structure ProjectContext where
  project_summary : Option ProjectSummary := none
  projectSummary : Option ProjectSummary := none
  final_decisions : Option FinalDecisions := none
  finalDecisions : Option FinalDecisions := none
deriving DecidableEq, Repr

/-- The system message template (route.ts lines 184-191). -/
def systemContent (ps : ProjectSummary) : String :=
  "Project: " ++ jsOrD2 ps.project_name ps.projectName "Untitled Project" ++
  "\n\n" ++ jsOrD2 ps.project_description ps.projectDescription "" ++
  "\n\nTarget Users: " ++ jsOrD2 ps.target_users ps.targetUsers "Not specified" ++
  "\nPlatform: " ++ jsOrD ps.platform "Not specified" ++
  "\nTimeline: " ++ jsOrD ps.timeline "Not specified" ++
  "\nTeam Size: " ++ jsOrD2 ps.team_size ps.teamSize "Not specified"

/-- The metadata extraction (route.ts lines 265-273): plain `||`
fallbacks assigned into optional slots. -/
def metadataOf (ps : ProjectSummary) : ProjectMetadata :=
  { project_name := jsOrOpt ps.project_name ps.projectName
    project_description := jsOrOpt ps.project_description ps.projectDescription
    target_users := jsOrOpt ps.target_users ps.targetUsers
    platform := ps.platform
    timeline := ps.timeline
    team_size := jsOrOpt ps.team_size ps.teamSize }

/-- The body of the `features.forEach` loop (route.ts line 208): one
bullet line per MVP feature. -/
def featureLine (f : String) : String :=
  "- " ++ f ++ "\n"

/-- The body of the `Object.keys(tech).forEach` loop (route.ts lines
227-230): one generically labeled line per technical sub-field. -/
def techLine (kv : String × String) : String :=
  jsLabel kv.1 ++ ": " ++ kv.2 ++ "\n"

/-- The body of the `Object.keys(project.milestones).forEach` loop
(route.ts lines 250-253): one bullet line per milestone, key
upper-cased. -/
def milestoneLine (kv : String × String) : String :=
  "- " ++ jsUpperLabel kv.1 ++ ": " ++ kv.2 ++ "\n"

/-- The Alex (product manager) message body before `.trim()` (route.ts
lines 201-219): fixed labels for the three recognized sub-fields;
`mvp_features` is a bullet list. An array is truthy even when empty. -/
def alexBody (p : ProductSection) : String :=
  let s := "Product Manager Perspective - MVP Requirements:\n\n"
  let s := match jsOrAny p.mvp_features p.mvpFeatures with
    | some feats => s ++ "MVP Features:\n" ++ strJoin (feats.map featureLine)
    | none => s
  let tu := jsOrOpt p.target_users p.targetUsers
  let s := if truthyS tu then s ++ "\nTarget Users: " ++ tu.getD "" else s
  let da := jsOrOpt p.development_approach p.developmentApproach
  let s := if truthyS da then s ++ "\nDevelopment Approach: " ++ da.getD "" else s
  s

/-- The Blake (technical architect) message body before `.trim()`
(route.ts lines 225-232): one generically labeled line per sub-field of
`technical`, in `Object.keys` order. -/
def blakeBody (tech : List (String × String)) : String :=
  "Technical Architect Perspective - Architecture & Stack:\n\n" ++
  strJoin (tech.map techLine)

/-- The Casey (project manager) message body before `.trim()` (route.ts
lines 238-258): fixed labels for the four recognized sub-fields;
milestone keys are upper-cased. -/
def caseyBody (p : ProjectSection) : String :=
  let s := "Project Manager Perspective - Timeline & Execution:\n\n"
  let s := if truthyS p.timeline then s ++ "Timeline: " ++ p.timeline.getD "" ++ "\n" else s
  let s := if truthyS p.team then s ++ "Team Composition: " ++ p.team.getD "" ++ "\n" else s
  let s := match p.milestones with
    | some ms => s ++ "\nMilestones:\n" ++ strJoin (ms.map milestoneLine)
    | none => s
  let s := if truthyS p.testing then s ++ "\nTesting Strategy: " ++ p.testing.getD "" else s
  s

/-- The three perspective pushes of `transformProjectContext`
(route.ts lines 199-262), in source order: alex for `product`, blake
for `technical`, casey for `project`, each only when its key is
present. -/
def perspectiveMessages (fd : FinalDecisions) : List ConsensusMessage :=
  (match fd.product with
    | some p => [⟨"alex", jsTrim (alexBody p)⟩]
    | none => []) ++
  (match fd.technical with
    | some t => [⟨"blake", jsTrim (blakeBody t)⟩]
    | none => []) ++
  (match fd.project with
    | some p => [⟨"casey", jsTrim (caseyBody p)⟩]
    | none => [])

/-- `transformProjectContext` (route.ts lines 178-276): the message
list is built by pushes guarded by presence tests, in source order
(system, alex, blake, casey); metadata is extracted from the resolved
summary, `{}` when none. -/
def transformProjectContext (ctx : ProjectContext) :
    List ConsensusMessage × ProjectMetadata :=
  let ps? := jsOrAny ctx.project_summary ctx.projectSummary
  let sysMsgs := match ps? with
    | some ps => [⟨"system", systemContent ps⟩]
    | none => []
  let fd? := jsOrAny ctx.final_decisions ctx.finalDecisions
  let perspMsgs := match fd? with
    | some fd => perspectiveMessages fd
    | none => []
  let meta := match ps? with
    | some ps => metadataOf ps
    | none => {}
  (sysMsgs ++ perspMsgs, meta)

/-- A summary with its unread fields erased. -/
def stripSummary (ps : ProjectSummary) : ProjectSummary :=
  { ps with extra := [] }

/-- A product section with its unread fields erased. -/
def stripProduct (p : ProductSection) : ProductSection :=
  { p with extra := [] }

/-- A project section with its unread fields erased. -/
def stripProject (p : ProjectSection) : ProjectSection :=
  { p with extra := [] }

/-- Final decisions with every unread field erased: unrecognized
sub-fields of `product` and `project`, and unknown perspective keys. -/
def stripDecisions (fd : FinalDecisions) : FinalDecisions :=
  { product := fd.product.map stripProduct
    technical := fd.technical
    project := fd.project.map stripProject
    extra := [] }

/-- A project context with every field erased that
`transformProjectContext` never reads. -/
def stripUnrecognized (ctx : ProjectContext) : ProjectContext :=
  { project_summary := ctx.project_summary.map stripSummary
    projectSummary := ctx.projectSummary.map stripSummary
    final_decisions := ctx.final_decisions.map stripDecisions
    finalDecisions := ctx.finalDecisions.map stripDecisions }

/-- Whether a string value shows up anywhere in the transformer's
output: as a substring of some message's content, or as one of the
metadata values. -/
def appearsIn (out : List ConsensusMessage × ProjectMetadata) (v : String) : Bool :=
  out.1.any (fun m => strContains m.content v) ||
  [out.2.project_name, out.2.project_description, out.2.target_users,
   out.2.platform, out.2.timeline, out.2.team_size].any (fun f => f == some v)

/-- The backend base URL: `process.env.STORYCRAFTER_SERVICE_URL` with
this literal fallback (route.ts line 10). The environment override only
changes the string, not the control flow, so the default is used. -/
def STORYCRAFTER_SERVICE_URL : String :=
  "https://storycrafter-service.vercel.app"

/-- The body `POST`ed to `/generate-epics` by `handleGenerateEpics`
(route.ts lines 298-308). -/
structure GenerateEpicsBody where
  consensus_messages : List ConsensusMessage
  project_metadata : ProjectMetadata
deriving DecidableEq, Repr

/-- `handleGenerateEpics`: the payload it sends after transforming the
validated `project_context` (route.ts lines 294-303). -/
def epicsOutboundBody (ctx : ProjectContext) : GenerateEpicsBody :=
  { consensus_messages := (transformProjectContext ctx).1
    project_metadata := (transformProjectContext ctx).2 }

/-- The body `POST`ed to `/generate-stories` by `handleGenerateStories`
(route.ts lines 354-360): `epic: epics[0]` is `undefined` when the
array is empty, and an `undefined` property is dropped by JSON
serialization, which `none` models. Epic objects are never inspected,
so their type is a parameter. -/
structure GenerateStoriesBody (ε : Type) where
  epic : Option ε
  consensus_messages : List ConsensusMessage
  project_metadata : ProjectMetadata

/-- The payload `handleGenerateStories` sends after validation
(route.ts lines 349-360). -/
def storiesOutboundBody {ε : Type} (ctx : ProjectContext) (epics : List ε) :
    GenerateStoriesBody ε :=
  { epic := epics.head?
    consensus_messages := (transformProjectContext ctx).1
    project_metadata := (transformProjectContext ctx).2 }

/-- An argument slot of the `arguments` record as the validators test
it: absent (or `null`), present with the wrong runtime type, or present
with the expected shape. -/
inductive JsArg (α : Type) where
  | absent
  | invalid
  | value (a : α)
deriving DecidableEq

/-- What a handler does up to its first network call: fail validation
with the thrown message, or issue the backend call with a body. -/
inductive HandlerStep (β : Type) where
  | validationError (msg : String)
  | backendCall (body : β)

/-- `true` exactly when the step reached the backend call. -/
def HandlerStep.isBackendCall {β : Type} : HandlerStep β → Bool
  | .backendCall _ => true
  | .validationError _ => false

/-- `true` exactly when the step failed validation. -/
def HandlerStep.isValidationError {β : Type} : HandlerStep β → Bool
  | .validationError _ => true
  | .backendCall _ => false

/-- `handleGenerateStories` up to its backend call (route.ts lines
337-360): `project_context` is checked first (`!pc || typeof pc !==
'object'`), then `epics` (`!epics || !Array.isArray(epics)` — an empty
array is truthy and is an array, so it passes), then the transformed
body is posted. -/
def generateStoriesStep {ε : Type} (pc : JsArg ProjectContext)
    (epics : JsArg (List ε)) : HandlerStep (GenerateStoriesBody ε) :=
  match pc with
  | .value ctx =>
      match epics with
      | .value l => .backendCall (storiesOutboundBody ctx l)
      | _ => .validationError "epics is required and must be an array"
  | _ => .validationError "project_context is required and must be an object"

/-- The body the backend answered with, as far as the handlers read it:
`success`, `error` and `detail` (route.ts lines 310-311 and 328). -/
structure BackendBody where
  success : Bool
  error : Option String := none
  detail : Option String := none
deriving DecidableEq, Repr

/-- How an awaited `axios.post` to the backend ends: a response with a
status (axios resolves 2xx and rejects anything else with
`error.response` set), no response at all (timeout or connection
failure, `error.request` set), or a request-setup failure. -/
inductive BackendOutcome where
  | response (status : Nat) (statusText : String) (body : BackendBody)
  | noResponse
  | setupError (msg : String)
deriving DecidableEq, Repr

/-- The `try`/`catch` epilogue shared verbatim by all four handlers
(route.ts lines 297-334, 352-391, 413-452, 478-518), with the handler's
default error string as a parameter (`'Epic generation failed'` and so
on). A 2xx response with `success: false` raises a plain `Error` inside
the `try`, which the same `catch` re-labels `Request error:` because
that error has neither `.response` nor `.request`. A non-2xx response
is rejected by axios with `.response` set, and the message uses
`error.response.data?.detail || error.response.statusText` — not the
body's `error` field. -/
def backendCallResult (url defaultErr : String) (o : BackendOutcome) :
    Except String Unit :=
  match o with
  | .response st stText body =>
      if 200 ≤ st ∧ st < 300 then
        if body.success then .ok ()
        else .error ("Request error: " ++ jsOrD body.error defaultErr)
      else .error ("StoryCrafter service error: " ++ jsOrD body.detail stText)
  | .noResponse => .error ("StoryCrafter service unavailable: " ++ url)
  | .setupError m => .error ("Request error: " ++ m)

/-- The embedded error object of a JSON-RPC-style failure response
(route.ts lines 561-565). -/
structure ErrorBody where
  code : Int
  message : String
deriving DecidableEq, Repr

/-- Where the `tools/call` dispatch sends a request: to one of the four
handlers, or straight to an error response with an HTTP status and an
embedded error body. -/
inductive ToolDispatch where
  | handler (name : String)
  | errorResponse (status : Nat) (body : ErrorBody)
deriving DecidableEq, Repr

/-- The HTTP status of a dispatch outcome, when it is an immediate
error response. -/
def ToolDispatch.statusOf : ToolDispatch → Option Nat
  | .errorResponse st _ => some st
  | .handler _ => none

/-- The four tool names the `tools/call` switch knows (route.ts lines
541-556). -/
def knownToolNames : List String :=
  ["generate_epics", "generate_stories", "regenerate_epic", "regenerate_story"]

/-- `${toolName}` in a template literal: `undefined` prints as the word
`undefined`. -/
def jsShowOptStr : Option String → String
  | some s => s
  | none => "undefined"

/-- The `switch (toolName)` of the `tools/call` branch (route.ts lines
536-570): the four known names reach their handlers; any other name —
`params.tool` may also be absent — gets `{ error: { code: -32601,
message } }` with HTTP status 400. -/
def dispatchToolCall (tool : Option String) : ToolDispatch :=
  if tool = some "generate_epics" then .handler "generate_epics"
  else if tool = some "generate_stories" then .handler "generate_stories"
  else if tool = some "regenerate_epic" then .handler "regenerate_epic"
  else if tool = some "regenerate_story" then .handler "regenerate_story"
  else .errorResponse 400 ⟨-32601, "Unknown tool: " ++ jsShowOptStr tool⟩

/-- The three providers of the bearer-token variant
(`src/unnamed/part_000` lines 33-36). -/
inductive AIProvider where
  | anthropic
  | openai
  | openrouter
deriving DecidableEq, Repr

/-- The provider name as the TypeScript string literal. -/
def providerName : AIProvider → String
  | .anthropic => "anthropic"
  | .openai => "openai"
  | .openrouter => "openrouter"

/-- A task's provider/model preference (`part_000` lines 33-36). -/
structure AIProviderPreference where
  provider : AIProvider
  model : String
deriving DecidableEq, Repr

/-- The task names of the preferences record (`part_000` lines 42-48). -/
inductive AITask where
  | epicGeneration
  | storyGeneration
  | agentConversations
  | projectDescription
  | contextLoading
deriving DecidableEq, Repr

/-- The `preferences` sub-record (`part_000` lines 42-48). -/
structure AIPreferences where
  epicGeneration : Option AIProviderPreference := none
  storyGeneration : Option AIProviderPreference := none
  agentConversations : Option AIProviderPreference := none
  projectDescription : Option AIProviderPreference := none
  contextLoading : Option AIProviderPreference := none
deriving DecidableEq, Repr

/-- `aiConfig.preferences[task]`. -/
def prefFor (p : AIPreferences) : AITask → Option AIProviderPreference
  | .epicGeneration => p.epicGeneration
  | .storyGeneration => p.storyGeneration
  | .agentConversations => p.agentConversations
  | .projectDescription => p.projectDescription
  | .contextLoading => p.contextLoading

/-- `AIProviderConfig` (`part_000` lines 38-49): key fields optional. -/
structure AIProviderConfig where
  anthropicApiKey : Option String := none
  openaiApiKey : Option String := none
  openrouterApiKey : Option String := none
  preferences : AIPreferences := {}
deriving DecidableEq, Repr

/-- The `configs` record of a project configuration (`part_000` lines
54-59); only `aiProvider` is read by the resolver. -/
structure ProjectConfigs where
  aiProvider : Option AIProviderConfig := none
deriving DecidableEq, Repr

/-- `ProjectConfig` (`part_000` lines 51-60). -/
structure ProjectConfig where
  projectId : String := ""
  projectName : String := ""
  configs : ProjectConfigs := {}
deriving DecidableEq, Repr

/-- The key field of the configuration that the provider `switch`
selects (`part_000` lines 127-138). -/
def keyOf (aiCfg : AIProviderConfig) : AIProvider → Option String
  | .anthropic => aiCfg.anthropicApiKey
  | .openai => aiCfg.openaiApiKey
  | .openrouter => aiCfg.openrouterApiKey

/-- The default model identifier of the fallback preference
(`part_000` line 123). -/
def defaultModelId : String := "claude-sonnet-4.5"

/-- What `getAIProviderForTask` returns (`part_000` lines 144-148). -/
structure AISelection where
  provider : AIProvider
  model : String
  apiKey : String
deriving DecidableEq, Repr

/-- `getAIProviderForTask` (`part_000` lines 109-149): missing
`aiProvider` section throws; the task preference falls back to
`{provider: 'anthropic', model: 'claude-sonnet-4.5'}` (an object is
always truthy, so a set preference always wins); the selected
provider's key field is then required to be truthy (`!apiKey` also
rejects an empty string). -/
def getAIProviderForTask (config : ProjectConfig) (task : AITask) :
    Except String AISelection :=
  match config.configs.aiProvider with
  | none => .error "AI provider configuration not found in project config"
  | some aiCfg =>
      let preference := (prefFor aiCfg.preferences task).getD
        { provider := .anthropic, model := defaultModelId }
      let apiKey := keyOf aiCfg preference.provider
      if truthyS apiKey then
        .ok { provider := preference.provider, model := preference.model
              apiKey := apiKey.getD "" }
      else
        .error ("API key not found for provider: " ++ providerName preference.provider)

/-- `isOk` of the embedded fallible computations. -/
def isOkE {ε α : Type} : Except ε α → Bool
  | .ok _ => true
  | .error _ => false

theorem strData_append (a b : String) : (a ++ b).data = a.data ++ b.data := rfl

theorem strContains_of_infix {hay needle : String}
    (h : needle.data <:+: hay.data) : strContains hay needle = true := by
  rcases List.infix_iff_prefix_suffix.1 h with ⟨t, hpre, hsuf⟩
  unfold strContains
  rw [List.any_eq_true]
  refine ⟨t, (List.mem_tails _ _).2 hsuf, ?_⟩
  rw [ List.isPrefixOf_iff_prefix]
  exact hpre

theorem infix_strJoin_of_mem {α : Type} (f : α → String) {x : α} {l : List α}
    (hx : x ∈ l) : (f x).data <:+: (strJoin (l.map f)).data := by
  induction l with
  | nil => cases hx
  | cons a as ih =>
    rcases List.mem_cons.1 hx with h | h
    · subst h
      simp only [List.map_cons, strJoin, strData_append]
      exact (List.prefix_append _ _).isInfix
    · simp only [List.map_cons, strJoin, strData_append]
      exact (ih h).trans (List.suffix_append _ _).isInfix

theorem systemContent_strip (ps : ProjectSummary) :
    systemContent (stripSummary ps) = systemContent ps := rfl

theorem metadataOf_strip (ps : ProjectSummary) :
    metadataOf (stripSummary ps) = metadataOf ps := rfl

theorem perspectiveMessages_strip (fd : FinalDecisions) :
    perspectiveMessages (stripDecisions fd) = perspectiveMessages fd := by
  obtain ⟨p, t, pr, ex⟩ := fd
  cases p <;> cases pr <;> rfl

theorem perspectiveMessages_roles (fd : FinalDecisions) :
    (perspectiveMessages fd).map ConsensusMessage.role =
      (match fd.product with | some _ => ["alex"] | none => []) ++
      (match fd.technical with | some _ => ["blake"] | none => []) ++
      (match fd.project with | some _ => ["casey"] | none => []) := by
  obtain ⟨p, t, pr, ex⟩ := fd
  cases p <;> cases t <;> cases pr <;> rfl

theorem jsOrAny_map_strip (a b : Option ProjectSummary) :
    jsOrAny (a.map stripSummary) (b.map stripSummary) =
      (jsOrAny a b).map stripSummary := by
  cases a <;> cases b <;> rfl

theorem jsOrAny_map_stripD (a b : Option FinalDecisions) :
    jsOrAny (a.map stripDecisions) (b.map stripDecisions) =
      (jsOrAny a b).map stripDecisions := by
  cases a <;> cases b <;> rfl

theorem blake_message_mem {ctx : ProjectContext} {fd : FinalDecisions}
    {tech : List (String × String)}
    (hfd : jsOrAny ctx.final_decisions ctx.finalDecisions = some fd)
    (ht : fd.technical = some tech) :
    ConsensusMessage.mk "blake" (jsTrim (blakeBody tech)) ∈
      (transformProjectContext ctx).1 := by
  unfold transformProjectContext
  simp only [hfd]
  unfold perspectiveMessages
  rw [ht]
  apply List.mem_append_right
  apply List.mem_append_left
  apply List.mem_append_right
  exact List.mem_cons_self _ _

theorem techLine_infix_blakeBody {tech : List (String × String)}
    {k v : String} (hkv : (k, v) ∈ tech) :
    (techLine (k, v)).data <:+: (blakeBody tech).data := by
  unfold blakeBody
  rw [strData_append]
  exact (infix_strJoin_of_mem techLine hkv).trans (List.suffix_append _ _).isInfix

/-- C1: for the project context with summary `{project_name:
"TaskMaster", platform: "Web"}` and final decisions `{technical:
{frontend: "React"}}`, the transformation produces exactly the system
and blake messages of the spec's end-to-end example, with metadata
carrying exactly `project_name` and `platform`, and
`handleGenerateEpics` posts exactly this body to the backend. -/
theorem generate_epics_end_to_end_payload :
    epicsOutboundBody
      { project_summary := some { project_name := some "TaskMaster", platform := some "Web" }
        final_decisions := some { technical := some [("frontend", "React")] } } =
    { consensus_messages :=
        [⟨"system", "Project: TaskMaster\n\n\n\nTarget Users: Not specified\nPlatform: Web\nTimeline: Not specified\nTeam Size: Not specified"⟩,
         ⟨"blake", "Technical Architect Perspective - Architecture & Stack:\n\nFrontend: React"⟩]
      project_metadata := { project_name := some "TaskMaster", platform := some "Web" } } := by
  decide

/-- C3: a validated `generate_stories` call posts a body whose `epic`
field is exactly the head of the `epics` array (`none`, dropped from
JSON, when the array is empty), and two epics arrays with the same
head produce identical outbound bodies, so elements after the first
never influence the request. -/
theorem stories_payload_first_epic_only {ε : Type} (ctx : ProjectContext)
    (epics epics' : List ε) (h : epics.head? = epics'.head?) :
    generateStoriesStep (.value ctx) (.value epics) =
      .backendCall (storiesOutboundBody ctx epics) ∧
    (storiesOutboundBody ctx epics).epic = epics.head? ∧
    storiesOutboundBody ctx epics = storiesOutboundBody ctx epics' ∧
    (storiesOutboundBody ctx ([] : List ε)).epic = none := by
  refine ⟨rfl, rfl, ?_, rfl⟩
  unfold storiesOutboundBody
  rw [h]

theorem stories_payload_first_epic_only_witness :
    generateStoriesStep (.value ({} : ProjectContext)) (.value [1, 2, 3]) =
      .backendCall (storiesOutboundBody {} [1, 2, 3]) ∧
    (storiesOutboundBody ({} : ProjectContext) [1, 2, 3]).epic = [1, 2, 3].head? ∧
    storiesOutboundBody ({} : ProjectContext) [1, 2, 3] =
      storiesOutboundBody {} [1, 9, 9] ∧
    (storiesOutboundBody ({} : ProjectContext) ([] : List Nat)).epic = none :=
  stories_payload_first_epic_only {} [1, 2, 3] [1, 9, 9] rfl

/-- C9: whenever the `epics` argument is present but not an array the
handler stops at validation and the backend call is never built; when
`project_context` passed its own check first, the thrown message names
the `epics` field; an empty array passes validation and reaches the
backend call. -/
theorem stories_validation_gate (ε : Type) (pc : JsArg ProjectContext)
    (ctx : ProjectContext) :
    (generateStoriesStep (ε := ε) pc .invalid).isValidationError = true ∧
    (generateStoriesStep (ε := ε) pc .invalid).isBackendCall = false ∧
    generateStoriesStep (ε := ε) (.value ctx) .invalid =
      .validationError "epics is required and must be an array" ∧
    generateStoriesStep (.value ctx) (.value ([] : List ε)) =
      .backendCall (storiesOutboundBody ctx []) := by
  refine ⟨?_, ?_, rfl, rfl⟩ <;> cases pc <;> rfl

/-- C7: the transformer emits roles in the fixed order system, alex,
blake, casey, omitting exactly the ones whose source section is
absent. -/
theorem message_role_order (ctx : ProjectContext) :
    (transformProjectContext ctx).1.map ConsensusMessage.role =
      (match jsOrAny ctx.project_summary ctx.projectSummary with
        | some _ => ["system"]
        | none => []) ++
      (match jsOrAny ctx.final_decisions ctx.finalDecisions with
        | some fd =>
            (match fd.product with | some _ => ["alex"] | none => []) ++
            (match fd.technical with | some _ => ["blake"] | none => []) ++
            (match fd.project with | some _ => ["casey"] | none => [])
        | none => []) := by
  unfold transformProjectContext
  cases jsOrAny ctx.project_summary ctx.projectSummary <;>
    cases jsOrAny ctx.final_decisions ctx.finalDecisions <;>
    simp [perspectiveMessages_roles]

/-- C4 counterexample: for the unknown tool name `make_coffee` the
dispatcher answers with HTTP status 400 — not 200 as the claim states
— though it does embed the error object in the body. -/
theorem unknown_tool_status_400 :
    dispatchToolCall (some "make_coffee") =
      .errorResponse 400 ⟨-32601, "Unknown tool: make_coffee"⟩ ∧
    (dispatchToolCall (some "make_coffee")).statusOf ≠ some 200 := by
  decide

/-- C4 amended: a `tools/call` whose tool name is not one of the four
known tools gets an immediate response with HTTP status 400 and an
embedded error object `{code: -32601, message: "Unknown tool: ..."}`;
the dispatcher returns normally rather than crashing. -/
theorem unknown_tool_dispatch (tool : Option String)
    (h : ∀ n ∈ knownToolNames, tool ≠ some n) :
    dispatchToolCall tool =
      .errorResponse 400 ⟨-32601, "Unknown tool: " ++ jsShowOptStr tool⟩ := by
  unfold dispatchToolCall
  rw [if_neg (h "generate_epics" (by decide)),
      if_neg (h "generate_stories" (by decide)),
      if_neg (h "regenerate_epic" (by decide)),
      if_neg (h "regenerate_story" (by decide))]

theorem unknown_tool_dispatch_witness :
    dispatchToolCall (some "brew_tea") =
      .errorResponse 400 ⟨-32601, "Unknown tool: " ++ jsShowOptStr (some "brew_tea")⟩ :=
  unknown_tool_dispatch (some "brew_tea") (by decide)

/-- C2 counterexample: a backend stub answering HTTP 500 with body
`{success: false, error: "boom"}` makes the handler throw
`StoryCrafter service error: Internal Server Error` — built from
`response.data?.detail || response.statusText`, not from the body's
`error` field — so the caller's message does not contain `boom`. -/
theorem backend_error_boom_not_surfaced :
    backendCallResult STORYCRAFTER_SERVICE_URL "Epic generation failed"
        (.response 500 "Internal Server Error"
          { success := false, error := some "boom" }) =
      .error "StoryCrafter service error: Internal Server Error" ∧
    strContains "StoryCrafter service error: Internal Server Error" "boom" = false :=
  ⟨rfl, by decide⟩

/-- C2 amended: a non-2xx backend response fails with `StoryCrafter
service error: ` followed by the body's `detail` field when truthy and
the HTTP status text otherwise (the body's `error` field is not used
for this class); no response before the timeout or a connection
failure fails with `StoryCrafter service unavailable: ` followed by
the configured backend base URL, which the message therefore contains;
and the two failure classes always produce distinct message text. -/
theorem backend_failure_classification (url defaultErr stText : String)
    (st : Nat) (body : BackendBody) (hst : ¬ (200 ≤ st ∧ st < 300)) :
    backendCallResult url defaultErr (.response st stText body) =
      .error ("StoryCrafter service error: " ++ jsOrD body.detail stText) ∧
    backendCallResult url defaultErr .noResponse =
      .error ("StoryCrafter service unavailable: " ++ url) ∧
    strContains ("StoryCrafter service unavailable: " ++ url) url = true ∧
    ("StoryCrafter service error: " ++ jsOrD body.detail stText) ≠
      ("StoryCrafter service unavailable: " ++ url) := by
  refine ⟨?_, rfl, ?_, ?_⟩
  · simp only [backendCallResult]
    rw [if_neg hst]
  · apply strContains_of_infix
    rw [strData_append]
    exact (List.suffix_append _ _).isInfix
  · intro hEq
    have hd : ("StoryCrafter service error: ").data ++ (jsOrD body.detail stText).data =
        ("StoryCrafter service unavailable: ").data ++ url.data := by
      have h2 := congrArg String.data hEq
      rwa [strData_append, strData_append] at h2
    have h28 := congrArg (List.take 28) hd
    rw [List.take_append_of_le_length (by decide),
        List.take_append_of_le_length (by decide)] at h28
    exact absurd h28 (by decide)

theorem backend_failure_classification_witness :
    backendCallResult STORYCRAFTER_SERVICE_URL "Story generation failed"
        (.response 503 "Service Unavailable"
          { success := false, detail := some "overloaded" }) =
      .error ("StoryCrafter service error: " ++
        jsOrD (some "overloaded") "Service Unavailable") ∧
    backendCallResult STORYCRAFTER_SERVICE_URL "Story generation failed" .noResponse =
      .error ("StoryCrafter service unavailable: " ++ STORYCRAFTER_SERVICE_URL) ∧
    strContains ("StoryCrafter service unavailable: " ++ STORYCRAFTER_SERVICE_URL)
      STORYCRAFTER_SERVICE_URL = true ∧
    ("StoryCrafter service error: " ++ jsOrD (some "overloaded") "Service Unavailable") ≠
      ("StoryCrafter service unavailable: " ++ STORYCRAFTER_SERVICE_URL) :=
  backend_failure_classification STORYCRAFTER_SERVICE_URL "Story generation failed"
    "Service Unavailable" 503 { success := false, detail := some "overloaded" }
    (by decide)

/-- C8 counterexample: with `project_name: ""` and `projectName:
"Camel"` both present, the transformer uses the camelCase value in the
metadata and in the system message — `""` is falsy, so `a || b` skips
the present snake_case value, contradicting the claim that the
snake_case value is used whenever the key is present. -/
theorem empty_snake_falls_to_camel :
    (transformProjectContext
        { project_summary :=
            some { project_name := some ""
                   projectName := some "Camel" } }).2.project_name =
      some "Camel" ∧
    (transformProjectContext
        { project_summary :=
            some { project_name := some ""
                   projectName := some "Camel" } }).2.project_name ≠
      some "" ∧
    (transformProjectContext
        { project_summary :=
            some { project_name := some ""
                   projectName := some "Camel" } }).1 =
      [⟨"system", "Project: Camel\n\n\n\nTarget Users: Not specified\nPlatform: Not specified\nTimeline: Not specified\nTeam Size: Not specified"⟩] := by
  decide

/-- C8 amended: for each of the four dual-spelled `project_summary`
fields — `project_name`/`projectName`, `project_description`/
`projectDescription`, `target_users`/`targetUsers` and
`team_size`/`teamSize` — the snake_case value wins whenever it is
truthy (a nonempty string): the metadata carries it, and replacing the
four camelCase values by arbitrary others changes neither the metadata
nor the system message; when a snake_case key is absent or its value
is the falsy empty string, the camelCase value is used instead. -/
theorem snake_case_preference (ps : ProjectSummary)
    (vn vd vt vs : String) (cn cd ct cs : Option String)
    (hn : ps.project_name = some vn) (hn2 : vn ≠ "")
    (hd : ps.project_description = some vd) (hd2 : vd ≠ "")
    (ht : ps.target_users = some vt) (ht2 : vt ≠ "")
    (hs : ps.team_size = some vs) (hs2 : vs ≠ "") :
    (metadataOf ps).project_name = some vn ∧
    (metadataOf ps).project_description = some vd ∧
    (metadataOf ps).target_users = some vt ∧
    (metadataOf ps).team_size = some vs ∧
    metadataOf { ps with
        projectName := cn
        projectDescription := cd
        targetUsers := ct
        teamSize := cs } = metadataOf ps ∧
    systemContent { ps with
        projectName := cn
        projectDescription := cd
        targetUsers := ct
        teamSize := cs } = systemContent ps ∧
    (metadataOf { ps with project_name := none }).project_name = ps.projectName ∧
    (metadataOf { ps with project_name := some "" }).project_name = ps.projectName ∧
    (metadataOf { ps with project_description := none }).project_description =
      ps.projectDescription ∧
    (metadataOf { ps with project_description := some "" }).project_description =
      ps.projectDescription ∧
    (metadataOf { ps with target_users := none }).target_users = ps.targetUsers ∧
    (metadataOf { ps with target_users := some "" }).target_users = ps.targetUsers ∧
    (metadataOf { ps with team_size := none }).team_size = ps.teamSize ∧
    (metadataOf { ps with team_size := some "" }).team_size = ps.teamSize := by
  refine ⟨?_, ?_, ?_, ?_, ?_, ?_, rfl, ?_, rfl, ?_, rfl, ?_, rfl, ?_⟩ <;>
    simp [metadataOf, systemContent, jsOrOpt, jsOrD2,
      hn, hn2, hd, hd2, ht, ht2, hs, hs2]

theorem snake_case_preference_witness :
    (metadataOf {
        project_name := some "N"
        projectName := some "cN"
        project_description := some "D"
        projectDescription := some "cD"
        target_users := some "T"
        targetUsers := some "cT"
        team_size := some "S"
        teamSize := some "cS" }).project_name = some "N" ∧
    (metadataOf {
        project_name := some "N"
        projectName := some "cN"
        project_description := some "D"
        projectDescription := some "cD"
        target_users := some "T"
        targetUsers := some "cT"
        team_size := some "S"
        teamSize := some "cS" }).project_description = some "D" ∧
    (metadataOf {
        project_name := some "N"
        projectName := some "cN"
        project_description := some "D"
        projectDescription := some "cD"
        target_users := some "T"
        targetUsers := some "cT"
        team_size := some "S"
        teamSize := some "cS" }).target_users = some "T" ∧
    (metadataOf {
        project_name := some "N"
        projectName := some "cN"
        project_description := some "D"
        projectDescription := some "cD"
        target_users := some "T"
        targetUsers := some "cT"
        team_size := some "S"
        teamSize := some "cS" }).team_size = some "S" ∧
    metadataOf {
        project_name := some "N"
        projectName := some "oN"
        project_description := some "D"
        projectDescription := some "oD"
        target_users := some "T"
        targetUsers := some "oT"
        team_size := some "S"
        teamSize := some "oS" } =
      metadataOf {
        project_name := some "N"
        projectName := some "cN"
        project_description := some "D"
        projectDescription := some "cD"
        target_users := some "T"
        targetUsers := some "cT"
        team_size := some "S"
        teamSize := some "cS" } ∧
    systemContent {
        project_name := some "N"
        projectName := some "oN"
        project_description := some "D"
        projectDescription := some "oD"
        target_users := some "T"
        targetUsers := some "oT"
        team_size := some "S"
        teamSize := some "oS" } =
      systemContent {
        project_name := some "N"
        projectName := some "cN"
        project_description := some "D"
        projectDescription := some "cD"
        target_users := some "T"
        targetUsers := some "cT"
        team_size := some "S"
        teamSize := some "cS" } ∧
    (metadataOf {
        project_name := none
        projectName := some "cN"
        project_description := some "D"
        projectDescription := some "cD"
        target_users := some "T"
        targetUsers := some "cT"
        team_size := some "S"
        teamSize := some "cS" }).project_name =
      ProjectSummary.projectName {
        project_name := some "N"
        projectName := some "cN"
        project_description := some "D"
        projectDescription := some "cD"
        target_users := some "T"
        targetUsers := some "cT"
        team_size := some "S"
        teamSize := some "cS" } ∧
    (metadataOf {
        project_name := some ""
        projectName := some "cN"
        project_description := some "D"
        projectDescription := some "cD"
        target_users := some "T"
        targetUsers := some "cT"
        team_size := some "S"
        teamSize := some "cS" }).project_name =
      ProjectSummary.projectName {
        project_name := some "N"
        projectName := some "cN"
        project_description := some "D"
        projectDescription := some "cD"
        target_users := some "T"
        targetUsers := some "cT"
        team_size := some "S"
        teamSize := some "cS" } ∧
    (metadataOf {
        project_name := some "N"
        projectName := some "cN"
        project_description := none
        projectDescription := some "cD"
        target_users := some "T"
        targetUsers := some "cT"
        team_size := some "S"
        teamSize := some "cS" }).project_description =
      ProjectSummary.projectDescription {
        project_name := some "N"
        projectName := some "cN"
        project_description := some "D"
        projectDescription := some "cD"
        target_users := some "T"
        targetUsers := some "cT"
        team_size := some "S"
        teamSize := some "cS" } ∧
    (metadataOf {
        project_name := some "N"
        projectName := some "cN"
        project_description := some ""
        projectDescription := some "cD"
        target_users := some "T"
        targetUsers := some "cT"
        team_size := some "S"
        teamSize := some "cS" }).project_description =
      ProjectSummary.projectDescription {
        project_name := some "N"
        projectName := some "cN"
        project_description := some "D"
        projectDescription := some "cD"
        target_users := some "T"
        targetUsers := some "cT"
        team_size := some "S"
        teamSize := some "cS" } ∧
    (metadataOf {
        project_name := some "N"
        projectName := some "cN"
        project_description := some "D"
        projectDescription := some "cD"
        target_users := none
        targetUsers := some "cT"
        team_size := some "S"
        teamSize := some "cS" }).target_users =
      ProjectSummary.targetUsers {
        project_name := some "N"
        projectName := some "cN"
        project_description := some "D"
        projectDescription := some "cD"
        target_users := some "T"
        targetUsers := some "cT"
        team_size := some "S"
        teamSize := some "cS" } ∧
    (metadataOf {
        project_name := some "N"
        projectName := some "cN"
        project_description := some "D"
        projectDescription := some "cD"
        target_users := some ""
        targetUsers := some "cT"
        team_size := some "S"
        teamSize := some "cS" }).target_users =
      ProjectSummary.targetUsers {
        project_name := some "N"
        projectName := some "cN"
        project_description := some "D"
        projectDescription := some "cD"
        target_users := some "T"
        targetUsers := some "cT"
        team_size := some "S"
        teamSize := some "cS" } ∧
    (metadataOf {
        project_name := some "N"
        projectName := some "cN"
        project_description := some "D"
        projectDescription := some "cD"
        target_users := some "T"
        targetUsers := some "cT"
        team_size := none
        teamSize := some "cS" }).team_size =
      ProjectSummary.teamSize {
        project_name := some "N"
        projectName := some "cN"
        project_description := some "D"
        projectDescription := some "cD"
        target_users := some "T"
        targetUsers := some "cT"
        team_size := some "S"
        teamSize := some "cS" } ∧
    (metadataOf {
        project_name := some "N"
        projectName := some "cN"
        project_description := some "D"
        projectDescription := some "cD"
        target_users := some "T"
        targetUsers := some "cT"
        team_size := some ""
        teamSize := some "cS" }).team_size =
      ProjectSummary.teamSize {
        project_name := some "N"
        projectName := some "cN"
        project_description := some "D"
        projectDescription := some "cD"
        target_users := some "T"
        targetUsers := some "cT"
        team_size := some "S"
        teamSize := some "cS" } :=
  snake_case_preference
    { project_name := some "N"
      projectName := some "cN"
      project_description := some "D"
      projectDescription := some "cD"
      target_users := some "T"
      targetUsers := some "cT"
      team_size := some "S"
      teamSize := some "cS" }
    "N" "D" "T" "S" (some "oN") (some "oD") (some "oT") (some "oS")
    rfl (by decide) rfl (by decide) rfl (by decide) rfl (by decide)

/-- C5 counterexample: a `product` perspective whose only sub-field is
`vision` produces an alex message with no labeled line at all — the
product branch only renders its three recognized sub-fields, so the
claimed uniform underscore-to-space title-case labeling does not hold
for the product perspective. -/
theorem product_subfield_not_labeled :
    (transformProjectContext
        { final_decisions :=
            some { product := some { extra := [("vision", "X")] } } }).1 =
      [⟨"alex", "Product Manager Perspective - MVP Requirements:"⟩] ∧
    strContains "Product Manager Perspective - MVP Requirements:" "Vision" = false := by
  decide

/-- C5 amended: the generic labeling — replace underscores with
spaces, then title-case each word — holds for the `technical`
perspective only: its message body carries one such labeled line per
sub-field, for every sub-field name. The `product` and `project`
branches use fixed labels for a fixed recognized set of sub-fields and
ignore the rest (and milestone labels are upper-cased, not
title-cased). -/
theorem technical_labeling (ctx : ProjectContext) (fd : FinalDecisions)
    (tech : List (String × String)) (k v : String)
    (hfd : jsOrAny ctx.final_decisions ctx.finalDecisions = some fd)
    (ht : fd.technical = some tech) (hkv : (k, v) ∈ tech) :
    ConsensusMessage.mk "blake" (jsTrim (blakeBody tech)) ∈ (transformProjectContext ctx).1 ∧
    strContains (blakeBody tech) (jsLabel k ++ ": " ++ v ++ "\n") = true := by
  refine ⟨blake_message_mem hfd ht, ?_⟩
  apply strContains_of_infix
  have h1 := techLine_infix_blakeBody hkv
  have h2 : techLine (k, v) = jsLabel k ++ ": " ++ v ++ "\n" := rfl
  rwa [h2] at h1

theorem technical_labeling_witness :
    ConsensusMessage.mk "blake" (jsTrim (blakeBody [("frontend", "React")])) ∈
      (transformProjectContext
        { final_decisions := some { technical := some [("frontend", "React")] } }).1 ∧
    strContains (blakeBody [("frontend", "React")])
      (jsLabel "frontend" ++ ": " ++ "React" ++ "\n") = true :=
  technical_labeling
    { final_decisions := some { technical := some [("frontend", "React")] } }
    { technical := some [("frontend", "React")] }
    [("frontend", "React")] "frontend" "React" rfl rfl (by decide)

/-- C6 counterexample: the `product` sub-field `vision` with value
`World peace` neither appears in any message content nor in the
metadata, and it is not the out-of-scope `questions_and_answers` key —
it is silently dropped, contradicting the claim. -/
theorem product_subfield_value_dropped :
    transformProjectContext
        { final_decisions :=
            some { product := some { extra := [("vision", "World peace")] } } } =
      ([⟨"alex", "Product Manager Perspective - MVP Requirements:"⟩], {}) ∧
    appearsIn
      (transformProjectContext
        { final_decisions :=
            some { product := some { extra := [("vision", "World peace")] } } })
      "World peace" = false := by
  decide

theorem transform_strip (ctx : ProjectContext) :
    transformProjectContext (stripUnrecognized ctx) = transformProjectContext ctx := by
  unfold transformProjectContext
  simp only [stripUnrecognized]
  rw [jsOrAny_map_strip, jsOrAny_map_stripD]
  cases jsOrAny ctx.project_summary ctx.projectSummary <;>
    cases jsOrAny ctx.final_decisions ctx.finalDecisions <;>
    simp [systemContent_strip, metadataOf_strip, perspectiveMessages_strip]

/-- C6 amended: every sub-field value of the `technical` perspective
appears in the blake message body of the transformer's output, but
sub-fields outside the fixed recognized sets of `project_summary`,
`product` and `project`, and unknown perspective keys, are silently
dropped: erasing all of them never changes the transformer's output. -/
theorem unrecognized_fields_dropped (ctx : ProjectContext) (fd : FinalDecisions)
    (tech : List (String × String)) (k v : String)
    (hfd : jsOrAny ctx.final_decisions ctx.finalDecisions = some fd)
    (ht : fd.technical = some tech) (hkv : (k, v) ∈ tech) :
    transformProjectContext (stripUnrecognized ctx) = transformProjectContext ctx ∧
    ConsensusMessage.mk "blake" (jsTrim (blakeBody tech)) ∈ (transformProjectContext ctx).1 ∧
    strContains (blakeBody tech) v = true := by
  refine ⟨transform_strip ctx, blake_message_mem hfd ht, ?_⟩
  apply strContains_of_infix
  have hv1 : v.data <:+: (techLine (k, v)).data :=
    ⟨(jsLabel k).data ++ ": ".data, "\n".data, rfl⟩
  exact hv1.trans (techLine_infix_blakeBody hkv)

theorem unrecognized_fields_dropped_witness :
    transformProjectContext
        (stripUnrecognized
          { final_decisions := some { technical := some [("backend", "Go")] } }) =
      transformProjectContext
        { final_decisions := some { technical := some [("backend", "Go")] } } ∧
    ConsensusMessage.mk "blake" (jsTrim (blakeBody [("backend", "Go")])) ∈
      (transformProjectContext
        { final_decisions := some { technical := some [("backend", "Go")] } }).1 ∧
    strContains (blakeBody [("backend", "Go")]) "Go" = true :=
  unrecognized_fields_dropped
    { final_decisions := some { technical := some [("backend", "Go")] } }
    { technical := some [("backend", "Go")] }
    [("backend", "Go")] "backend" "Go" rfl rfl (by decide)

/-- C10: with an AI-provider section present, the bearer-token
resolver selects the task-specific preference when one is set and the
fixed `anthropic`/`claude-sonnet-4.5` default pair otherwise, fails
exactly when the selected provider's API-key field is unpopulated
(absent or empty), and otherwise returns that provider, model and
key. -/
theorem provider_resolution (config : ProjectConfig) (aiCfg : AIProviderConfig)
    (task : AITask) (p : AIProviderPreference)
    (h : config.configs.aiProvider = some aiCfg)
    (hp : (prefFor aiCfg.preferences task).getD
        { provider := .anthropic, model := defaultModelId } = p) :
    isOkE (getAIProviderForTask config task) = truthyS (keyOf aiCfg p.provider) ∧
    getAIProviderForTask config task =
      (if truthyS (keyOf aiCfg p.provider) then
        Except.ok { provider := p.provider, model := p.model
                    apiKey := (keyOf aiCfg p.provider).getD "" }
      else
        Except.error ("API key not found for provider: " ++ providerName p.provider)) := by
  constructor
  · simp only [getAIProviderForTask, h]
    rw [hp]
    cases htr : truthyS (keyOf aiCfg p.provider) <;> simp [isOkE, htr]
  · simp only [getAIProviderForTask, h]
    rw [hp]

def sampleAIConfig : AIProviderConfig :=
  { openaiApiKey := some "sk-test"
    preferences := { storyGeneration := some { provider := .openai, model := "gpt-5" } } }

def sampleProjectConfig : ProjectConfig :=
  { projectId := "demo", configs := { aiProvider := some sampleAIConfig } }

theorem provider_resolution_witness :
    isOkE (getAIProviderForTask sampleProjectConfig .storyGeneration) =
      truthyS (keyOf sampleAIConfig AIProvider.openai) ∧
    getAIProviderForTask sampleProjectConfig .storyGeneration =
      (if truthyS (keyOf sampleAIConfig AIProvider.openai) then
        Except.ok { provider := AIProvider.openai, model := "gpt-5"
                    apiKey := (keyOf sampleAIConfig AIProvider.openai).getD "" }
      else
        Except.error ("API key not found for provider: " ++ providerName AIProvider.openai)) :=
  provider_resolution sampleProjectConfig sampleAIConfig .storyGeneration
    { provider := .openai, model := "gpt-5" } rfl rfl

end StoryCrafter
